import Mathlib

/-!
Shallow embedding of the data-transformation pipeline of
`src/visualization_app.py` (Walkthrough Perspectives Dashboard).

A `Record` models one row of the uploaded CSV, restricted to the columns
the pipeline reads.  pandas floating-point percentages are modelled as
exact rationals; pandas missing values (NaN) are modelled as `Option.none`.
Percentage series are modelled as association lists `List (String × ℚ)`
from label to percentage, in the order pandas would display them.
-/

/-- Python `str.strip` whitespace test (space, tab, newline, CR, VT, FF). -/
def isPySpace (c : Char) : Bool :=
  c == ' ' || c == '\t' || c == '\n' || c == '\r' || c == '\x0b' || c == '\x0c'

/-- Strip `isPySpace` characters from both ends of a character list. -/
def stripChars (l : List Char) : List Char :=
  ((l.dropWhile isPySpace).reverse.dropWhile isPySpace).reverse

/-- Python `str.strip()` on a string. -/
def pyStrip (s : String) : String := ⟨stripChars s.data⟩

/-- Does the character list `needle` occur at the head of `hay`? -/
def charsLeadMatch : List Char → List Char → Bool
  | [], _ => true
  | _ :: _, [] => false
  | a :: as, b :: bs => a == b && charsLeadMatch as bs

/-- Does `needle` occur as a contiguous sublist of `hay`? -/
def charsContains (needle : List Char) : List Char → Bool
  | [] => charsLeadMatch needle []
  | c :: t => charsLeadMatch needle (c :: t) || charsContains needle t

/-- Python `needle in hay` on strings. -/
def strContains (hay needle : String) : Bool := charsContains needle.data hay.data

/-- A raw cell of a Likert column: survey text, or an already-numeric code
(pandas keeps such cells as Python integers, so a dict lookup sees an
`int` key). -/
inductive CellValue where
  | text (s : String)
  | num (n : Int)
deriving DecidableEq

/-- One row of the uploaded CSV, restricted to the columns the pipeline
uses.  `purposeCells` lists the raw values of the purpose multi-select
columns in header order; `focusCells` lists the four focus-area columns
in the order of `focus_keys`. -/
structure Record where
  schoolName : Option String := none
  affiliationRaw : String := ""
  purposeCells : List String := []
  talkRaw : Option String := none
  focusCells : List (Option String) := []
  theoryRaw : Option CellValue := none
  accountabilityRaw : Option CellValue := none
  date : Option Int := none
deriving DecidableEq

/-- visualization_app.py lines 66-69: the exact-match affiliation table. -/
def affiliation_table : List (String × String) :=
  [("MNPS Support Hub", "SH"), ("This school's ILT", "ILT")]

/-- Lines 63-69: strip surrounding whitespace, then exact-match lookup;
an unmapped value becomes missing (`none`, pandas NaN). -/
def affiliationOf (raw : String) : Option String :=
  (affiliation_table.find? (fun p => p.1 == pyStrip raw)).map Prod.snd

/-- The derived `Affiliation` column of a record. -/
def affiliation (r : Record) : Option String := affiliationOf r.affiliationRaw

/-- Line 185: `support_hub_df = df[df["Affiliation"] == "SH"]`. -/
def support_hub_df (recs : List Record) : List Record :=
  recs.filter (fun r => affiliation r == some "SH")

/-- Line 186: `ilt_df = df[df["Affiliation"] == "ILT"]`. -/
def ilt_df (recs : List Record) : List Record :=
  recs.filter (fun r => affiliation r == some "ILT")

/-- Lines 90-105: the ordered (long phrase → short label) table. -/
def label_mapping : List (String × String) :=
  [("Identify areas for instructional improvement for the math or ELA team at this school",
    "Identify areas for instructional improvement"),
   ("Identify needed professional learning supports regarding math or ELA teaching",
    "Identify needed professional learning supports"),
   ("Sharpen our eye for quality math or ELA instruction",
    "Sharpen our eye for quality instruction"),
   ("Monitor progress on this schools theory of action",
    "Monitor progress on this school's theory of action"),
   ("Identify additional supports to enhance curriculum implementation",
    "Identify additional curricular implementation supports"),
   ("Provide feedback to individual teachers",
    "Provide feedback to individual teachers"),
   ("Evaluate individual teacher competence",
    "Evaluate individual teacher competence")]

/-- Lines 108-112: return the short label of the first long phrase that
occurs as a substring of the column name; otherwise the name passes
through unchanged. -/
def clean_column_name (colname : String) : String :=
  match label_mapping.find? (fun p => strContains colname p.1) with
  | some p => p.2
  | none => colname

/-- Line 72. -/
def talk_col : String := "Who talked the most during the debrief conversation?"

/-- Lines 75-80: raw value → standardized label. -/
def talk_label_map : List (String × String) :=
  [("No one person spoke significantly more than others",
    "No one person spoke significantly more"),
   ("Other ILT members (not the executive principal)", "Other ILT members"),
   ("Other support hub members (not EDs)", "Other Support Hub members"),
   ("The executive director(s)", "The executive director")]

/-- Line 83: `df["TalkLabel"] = df[talk_col].map(talk_label_map)`; a raw
value with no entry in the table becomes missing. -/
def talkLabel (r : Record) : Option String :=
  r.talkRaw.bind (fun s => (talk_label_map.find? (fun p => p.1 == s)).map Prod.snd)

/-- Insert into a sorted list (stable insertion-sort step). -/
def insSorted (le : α → α → Bool) (a : α) : List α → List α
  | [] => [a]
  | b :: t => if le a b then a :: b :: t else b :: insSorted le a t

/-- Stable sort w.r.t. the boolean relation `le`; models pandas
`sort_index` / `sort_values`. -/
def sortL (le : α → α → Bool) : List α → List α
  | [] => []
  | a :: t => insSorted le a (sortL le t)

/-- pandas `Series.sort_index()` on a label-keyed series. -/
def sort_index (d : List (String × ℚ)) : List (String × ℚ) :=
  sortL (fun a b => a.1 ≤ b.1) d

/-- Lines 189-190: `(group_df[purpose_columns] == "Checked").sum()` at
column `i`: the number of records of the group whose `i`-th purpose cell
is "Checked". -/
def countChecked (g : List Record) (i : Nat) : Nat :=
  (g.filter (fun r => r.purposeCells.getD i "" == "Checked")).length

/-- `counts.sum()`: total "Checked" flags over the first `n` purpose
columns. -/
def totalChecked (g : List Record) (n : Nat) : Nat :=
  ((List.range n).map (fun i => countChecked g i)).sum

/-- Lines 193-206: per-column percentage of all checked selections in a
group, keyed by the cleaned column label; the empty series when the group
has no checked flag at all. -/
def purposeDistRaw (headers : List String) (g : List Record) : List (String × ℚ) :=
  if totalChecked g headers.length = 0 then []
  else (List.range headers.length).map (fun i =>
    (clean_column_name (headers.getD i ""),
     100 * (countChecked g i : ℚ) / (totalChecked g headers.length : ℚ)))

/-- Lines 197-201 and 209: `support_percent`, sorted by label. -/
def support_percent (headers : List String) (recs : List Record) : List (String × ℚ) :=
  sort_index (purposeDistRaw headers (support_hub_df recs))

/-- Lines 202-206 and 210: `ilt_percent`, sorted by label. -/
def ilt_percent (headers : List String) (recs : List Record) : List (String × ℚ) :=
  sort_index (purposeDistRaw headers (ilt_df recs))

/-- Sum of the percentage values of a distribution. -/
def distSum (d : List (String × ℚ)) : ℚ := (d.map Prod.snd).sum

/-- Lines 259-260: the non-missing `TalkLabel` values of a group
(`df_subset[df_subset["TalkLabel"].notna()]["TalkLabel"]`). -/
def talkVals (recs : List Record) : List String := recs.filterMap talkLabel

/-- Lines 260-262 applied to a list of non-missing labels: `value_counts`
(counts per distinct label), divide by `counts.sum()` (the number of
non-missing values), and sort by descending percentage; empty when there
is no non-missing value. -/
def talkPctOfVals (vals : List String) : List (String × ℚ) :=
  if vals.length = 0 then []
  else (sortL (fun a b => vals.count b ≤ vals.count a) vals.dedup).map
    (fun s => (s, 100 * (vals.count s : ℚ) / (vals.length : ℚ)))

/-- Lines 257-262: `get_talk_percentages`. -/
def get_talk_percentages (recs : List Record) : List (String × ℚ) :=
  talkPctOfVals (talkVals recs)

/-- Round half to even (numpy / Python 3 rounding), on rationals. -/
def roundHalfEven (q : ℚ) : ℤ :=
  if q - ⌊q⌋ < 1/2 then ⌊q⌋
  else if 1/2 < q - ⌊q⌋ then ⌊q⌋ + 1
  else if ⌊q⌋ % 2 = 0 then ⌊q⌋ else ⌊q⌋ + 1

/-- `.round(1)`: round to one decimal place, half to even. -/
def round1 (q : ℚ) : ℚ := (roundHalfEven (10 * q) : ℚ) / 10

/-- Lines 278-288: a group's agreement proportion for purpose column `i`:
the percentage of all group respondents who checked it (denominator = the
number of records in the group), rounded to one decimal; 0.0 when the
group is empty. -/
def agreement_proportion (g : List Record) (i : Nat) : ℚ :=
  if 0 < g.length then round1 ((countChecked g i : ℚ) / (g.length : ℚ) * 100) else 0

/-- Line 298: `difference = round(sh_prop - ilt_prop, 1)`. -/
def agreement_difference (sh ilt : List Record) (i : Nat) : ℚ :=
  round1 (agreement_proportion sh i - agreement_proportion ilt i)

/-- The three styling zones of the Difference cell (lines 344-381). -/
inductive DiffZone where
  | blue
  | red
  | neutral
deriving DecidableEq

/-- Line 362. -/
def neutral_threshold : ℚ := 2

/-- Lines 367-379: positive/blue above `+neutral_threshold`, negative
red/orange below `-neutral_threshold`, otherwise the neutral grey band. -/
def style_difference_zone (val : ℚ) : DiffZone :=
  if neutral_threshold < val then DiffZone.blue
  else if val < -neutral_threshold then DiffZone.red
  else DiffZone.neutral

/-- Lines 435-440: the four focus-area source columns, in order. -/
def focus_keys : List String :=
  ["Staying on pace in the curriculum",
   "Using the curriculum with integrity",
   "Standards-aligned and/or grade-appropriate content",
   "Addressing the specific needs of marginalized learners"]

/-- Lines 443-448. -/
def response_order : List String :=
  ["A great deal of focus", "Some focus", "A minor focus", "Not a focus"]

/-- Line 473 condition: `df.dropna(subset=["Affiliation"] + focus_keys)`
keeps a record iff its affiliation is mapped and every one of its focus
cells is non-missing (listwise deletion). -/
def focusKeep (r : Record) : Bool :=
  (affiliation r).isSome && r.focusCells.all Option.isSome

/-- Line 473: `df_focus_all`. -/
def df_focus_all (recs : List Record) : List Record := recs.filter focusKeep

/-- Line 783: `school_df = df[df["School Name"] == selected_school]`. -/
def school_df (recs : List Record) (s : String) : List Record :=
  recs.filter (fun r => r.schoolName == some s)

/-- Line 888: `df_focus_school`. -/
def df_focus_school (recs : List Record) (s : String) : List Record :=
  (school_df recs s).filter focusKeep

/-- Focus-topic answers of one affiliation inside a dropna-filtered frame
(the series `ilt_subset[raw_col]` / `sh_subset[raw_col]` of lines 481-493):
the `i`-th focus cell of each record of the affiliation subset. -/
def focusValsOf (frame : List Record) (aff : String) (i : Nat) : List String :=
  (frame.filter (fun r => affiliation r == some aff)).filterMap
    (fun r => r.focusCells.getD i none)

/-- `value_counts(normalize=True).reindex(response_order, fill_value=0)*100`
evaluated at one response level (lines 482-488). -/
def focusLevelPct (vals : List String) (resp : String) : ℚ :=
  if vals.length = 0 then 0 else 100 * (vals.count resp : ℚ) / (vals.length : ℚ)

/-- One focus-topic distribution reindexed onto `response_order`
(lines 480-499). -/
def focusTopicDist (vals : List String) : List (String × ℚ) :=
  response_order.map (fun resp => (resp, focusLevelPct vals resp))

/-- Lines 480-489: row `i` of `ILT_data` as a labelled distribution. -/
def ILT_data (recs : List Record) (i : Nat) : List (String × ℚ) :=
  focusTopicDist (focusValsOf (df_focus_all recs) "ILT" i)

/-- Lines 491-499: row `i` of `SH_data`. -/
def SH_data (recs : List Record) (i : Nat) : List (String × ℚ) :=
  focusTopicDist (focusValsOf (df_focus_all recs) "SH" i)

/-- School-level analogue of `ILT_data` (lines 900-909). -/
def ILT_school_data (recs : List Record) (s : String) (i : Nat) : List (String × ℚ) :=
  focusTopicDist (focusValsOf (df_focus_school recs s) "ILT" i)

/-- School-level analogue of `SH_data` (lines 911-919). -/
def SH_school_data (recs : List Record) (s : String) (i : Nat) : List (String × ℚ) :=
  focusTopicDist (focusValsOf (df_focus_school recs s) "SH" i)

/-- Lines 585-594: the theory-of-action `likert_map` (text keys only). -/
def likert_map_theory : CellValue → Option Int
  | .text "Strongly disagree" => some 1
  | .text "Disagree" => some 2
  | .text "Neutral" => some 3
  | .text "Somewhat agree" => some 3
  | .text "Slightly agree" => some 3
  | .text "Agree" => some 4
  | .text "Strongly agree" => some 5
  | _ => none

/-- Lines 705-714: the accountability `likert_map` (the same text keys
plus the integer keys `1, 2, 3, 4, 5`, passing numeric codes through). -/
def likert_map_accountability : CellValue → Option Int
  | .text "Strongly disagree" => some 1
  | .text "Disagree" => some 2
  | .text "Neutral" => some 3
  | .text "Somewhat agree" => some 3
  | .text "Slightly agree" => some 3
  | .text "Agree" => some 4
  | .text "Strongly agree" => some 5
  | .num 1 => some 1
  | .num 2 => some 2
  | .num 3 => some 3
  | .num 4 => some 4
  | .num 5 => some 5
  | _ => none

/-- Line 597: `df["TheoryScore"] = df[theory_col].map(likert_map)`. -/
def theoryScore (r : Record) : Option Int := r.theoryRaw.bind likert_map_theory

/-- Line 599: `df_valid = df.dropna(subset=["Date", "TheoryScore"])`. -/
def trendValid (recs : List Record) : List Record :=
  recs.filter (fun r => r.date.isSome && (theoryScore r).isSome)

/-- Lines 603-608: group the valid rows by date (groupby sorts the keys
ascending) and average the scores of each date group. -/
def trend_all (recs : List Record) : List (Int × ℚ) :=
  (sortL (fun a b : Int => a ≤ b) (((trendValid recs).filterMap (fun r => r.date)).dedup)).map
    (fun d =>
      (d,
       ((((trendValid recs).filter (fun r => r.date == some d)).filterMap theoryScore).map
          (Int.cast : Int → ℚ)).sum /
        ((((trendValid recs).filter (fun r => r.date == some d)).filterMap theoryScore).length : ℚ)))

/-- Line 582. -/
def theory_col : String :=
  "Today's debrief discussion felt connected to this school's theory of action"

/-- Line 701. -/
def accountability_col : String :=
  "Support hub staff were primarily focused on holding this school accountable for results"

/-- Column-level model of the script's top-to-bottom control flow: the
result is (sections rendered before any uncaught error, that error if one
is raised).  Lines 60, 63 and 83 subscript the "School Name",
"Your affiliation:" and talk columns before any section renders, raising
`KeyError` when the column is absent; line 473 subscripts the four focus
columns after the purpose-donut, agreement-table and talk-donut sections
have rendered; the theory-trend (line 584) and accountability-trend
(line 703) sections test their columns first and degrade to an inline
notice.  The graceful check at lines 772-774 can only run once line 60
has already required "School Name" to exist. -/
def sectionsRendered (cols : List String) : List String × Option String :=
  if "School Name" ∉ cols then ([], some "KeyError: School Name")
  else if "Your affiliation:" ∉ cols then ([], some "KeyError: Your affiliation:")
  else if talk_col ∉ cols then ([], some "KeyError: talk column")
  else if ¬ (∀ k ∈ focus_keys, k ∈ cols) then
    (["overall_purpose_donuts", "agreement_table", "overall_talk_donuts"],
     some "KeyError: focus column")
  else
    (["overall_purpose_donuts", "agreement_table", "overall_talk_donuts",
      "overall_focus_bars"]
     ++ (if "Date" ∈ cols ∧ theory_col ∈ cols then ["theory_trend"]
         else ["theory_trend_missing_columns_notice"])
     ++ ["all_schools_purpose_donut", "all_schools_talk_donut"]
     ++ (if "Date" ∈ cols ∧ accountability_col ∈ cols then ["accountability_trend"]
         else ["accountability_trend_missing_columns_warning"])
     ++ ["school_level_breakdown"], none)

/-! ## Concrete inputs used by the claim theorems -/

/-- A Support Hub record with one checked purpose flag and a mapped
talk-most answer. -/
def c1RecSH : Record :=
  { affiliationRaw := "MNPS Support Hub", purposeCells := ["Checked"],
    talkRaw := some "The executive director(s)" }

/-- An ILT record with no checked flag and no talk-most answer. -/
def c1RecILT : Record := { affiliationRaw := "This school's ILT" }

/-- A Support Hub record whose talk-most answer is mapped. -/
def c9RecMapped : Record :=
  { affiliationRaw := "MNPS Support Hub",
    talkRaw := some "Other support hub members (not EDs)" }

/-- A record whose talk-most answer has no entry in `talk_label_map`. -/
def c9RecUnmapped : Record :=
  { affiliationRaw := "MNPS Support Hub", talkRaw := some "Someone else entirely" }

/-- A record the dropna filter keeps: mapped affiliation, all four focus
cells answered. -/
def c10RecKept : Record :=
  { affiliationRaw := "MNPS Support Hub",
    focusCells := [some "Some focus", some "Some focus",
                   some "Some focus", some "Some focus"] }

/-- A record with one missing focus cell (and everything else present). -/
def c10RecDropped : Record :=
  { affiliationRaw := "MNPS Support Hub",
    focusCells := [some "Some focus", none, some "Some focus", some "Some focus"] }

/-- A record whose affiliation text has the wrong case. -/
def c5RecLower : Record := { affiliationRaw := "mnps support hub" }

/-- A record whose theory-of-action cell holds unmapped survey text. -/
def c7RecUnmapped : Record :=
  { affiliationRaw := "MNPS Support Hub",
    theoryRaw := some (CellValue.text "sorta agree"), date := some 5 }

/-- Two ILT records for the C3 example: at topic 0 every record answered
"Not a focus". -/
def c3Recs : List Record :=
  [{ affiliationRaw := "This school's ILT",
     focusCells := [some "Not a focus", some "Not a focus",
                    some "Not a focus", some "Not a focus"] },
   { affiliationRaw := "This school's ILT",
     focusCells := [some "Not a focus", some "Some focus",
                    some "A minor focus", some "A great deal of focus"] }]

/-- Two purpose-column headers for the C2 scenario. -/
def c2Headers : List String :=
  ["The purpose of this walkthrough was to: [Provide feedback to individual teachers]",
   "The purpose of this walkthrough was to: [Evaluate individual teacher competence]"]

/-- Ten records, 6 SH and 4 ILT; among the SH records the first purpose
flag is "Checked" 3 times out of 5 total SH "Checked" flags. -/
def c2Recs : List Record :=
  [{ affiliationRaw := "MNPS Support Hub", purposeCells := ["Checked", ""] },
   { affiliationRaw := "MNPS Support Hub", purposeCells := ["Checked", ""] },
   { affiliationRaw := "MNPS Support Hub", purposeCells := ["Checked", ""] },
   { affiliationRaw := "MNPS Support Hub", purposeCells := ["", "Checked"] },
   { affiliationRaw := "MNPS Support Hub", purposeCells := ["", "Checked"] },
   { affiliationRaw := "MNPS Support Hub", purposeCells := ["", ""] },
   { affiliationRaw := "This school's ILT", purposeCells := ["Checked", ""] },
   { affiliationRaw := "This school's ILT", purposeCells := ["", ""] },
   { affiliationRaw := "This school's ILT", purposeCells := ["", ""] },
   { affiliationRaw := "This school's ILT", purposeCells := ["", ""] }]

/-- Twenty records for the C4 scenario: 10 SH of which 7 checked both
purposes (so purpose 0 is checked by 70% of SH respondents but by 50% of
all SH checked selections), and 10 ILT of which 4 checked purpose 0. -/
def c4Recs : List Record :=
  [{ affiliationRaw := "MNPS Support Hub", purposeCells := ["Checked", "Checked"] },
   { affiliationRaw := "MNPS Support Hub", purposeCells := ["Checked", "Checked"] },
   { affiliationRaw := "MNPS Support Hub", purposeCells := ["Checked", "Checked"] },
   { affiliationRaw := "MNPS Support Hub", purposeCells := ["Checked", "Checked"] },
   { affiliationRaw := "MNPS Support Hub", purposeCells := ["Checked", "Checked"] },
   { affiliationRaw := "MNPS Support Hub", purposeCells := ["Checked", "Checked"] },
   { affiliationRaw := "MNPS Support Hub", purposeCells := ["Checked", "Checked"] },
   { affiliationRaw := "MNPS Support Hub", purposeCells := ["", ""] },
   { affiliationRaw := "MNPS Support Hub", purposeCells := ["", ""] },
   { affiliationRaw := "MNPS Support Hub", purposeCells := ["", ""] },
   { affiliationRaw := "This school's ILT", purposeCells := ["Checked", ""] },
   { affiliationRaw := "This school's ILT", purposeCells := ["Checked", ""] },
   { affiliationRaw := "This school's ILT", purposeCells := ["Checked", ""] },
   { affiliationRaw := "This school's ILT", purposeCells := ["Checked", ""] },
   { affiliationRaw := "This school's ILT", purposeCells := ["", ""] },
   { affiliationRaw := "This school's ILT", purposeCells := ["", ""] },
   { affiliationRaw := "This school's ILT", purposeCells := ["", ""] },
   { affiliationRaw := "This school's ILT", purposeCells := ["", ""] },
   { affiliationRaw := "This school's ILT", purposeCells := ["", ""] },
   { affiliationRaw := "This school's ILT", purposeCells := ["", ""] }]

/-- All columns the script needs, except "School Name". -/
def c8Cols : List String :=
  ["Your affiliation:", talk_col, "Date", theory_col, accountability_col]
  ++ focus_keys

/-! ## Helper lemmas -/

theorem insSorted_perm (le : α → α → Bool) (a : α) (l : List α) :
    List.Perm (insSorted le a l) (a :: l) := by
  induction l with
  | nil => exact List.Perm.refl _
  | cons b t ih =>
    simp only [insSorted]
    by_cases h : le a b = true
    · rw [if_pos h]
    · rw [if_neg h]
      exact (ih.cons b).trans (List.Perm.swap a b t)

theorem sortL_perm (le : α → α → Bool) (l : List α) : List.Perm (sortL le l) l := by
  induction l with
  | nil => exact List.Perm.refl _
  | cons a t ih =>
    simp only [sortL]
    exact (insSorted_perm le a (sortL le t)).trans (ih.cons a)

theorem distSum_sort_index (d : List (String × ℚ)) : distSum (sort_index d) = distSum d :=
  ((sortL_perm _ d).map Prod.snd).sum_eq

theorem sum_pct_list (cs : List ℕ) (T : ℚ) :
    (cs.map (fun c : ℕ => 100 * (c : ℚ) / T)).sum = 100 * ((cs.sum : ℕ) : ℚ) / T := by
  induction cs with
  | nil => simp
  | cons a t ih =>
    rw [List.map_cons, List.sum_cons, ih, List.sum_cons]
    push_cast
    ring

theorem sum_pct_counts (cs : List ℕ) (h : cs.sum ≠ 0) :
    (cs.map (fun c : ℕ => 100 * (c : ℚ) / ((cs.sum : ℕ) : ℚ))).sum = 100 := by
  rw [sum_pct_list]
  exact mul_div_cancel_right₀ 100 (by exact_mod_cast h)

theorem countChecked_pos (g : List Record) (i : Nat) (r : Record) (hr : r ∈ g)
    (hc : r.purposeCells.getD i "" = "Checked") : 0 < countChecked g i := by
  have hmem : r ∈ g.filter (fun x => x.purposeCells.getD i "" == "Checked") :=
    List.mem_filter.mpr ⟨hr, by simp only [beq_iff_eq]; exact hc⟩
  exact List.length_pos.mpr (List.ne_nil_of_mem hmem)

theorem totalChecked_pos (g : List Record) (n i : Nat) (hi : i < n)
    (h : 0 < countChecked g i) : 0 < totalChecked g n := by
  have hmem : countChecked g i ∈ (List.range n).map (fun j => countChecked g j) :=
    List.mem_map_of_mem _ (List.mem_range.mpr hi)
  exact lt_of_lt_of_le h (List.le_sum_of_mem hmem)

theorem purpose_sum_100 (headers : List String) (g : List Record)
    (h : ∃ r ∈ g, ∃ i, i < headers.length ∧ r.purposeCells.getD i "" = "Checked") :
    distSum (sort_index (purposeDistRaw headers g)) = 100 := by
  obtain ⟨r, hr, i, hi, hc⟩ := h
  have hT : 0 < totalChecked g headers.length :=
    totalChecked_pos g _ i hi (countChecked_pos g i r hr hc)
  have hT0 : totalChecked g headers.length ≠ 0 := Nat.pos_iff_ne_zero.mp hT
  rw [distSum_sort_index, purposeDistRaw, if_neg hT0, distSum, List.map_map]
  have hs := sum_pct_counts ((List.range headers.length).map (fun j => countChecked g j)) hT0
  rw [List.map_map] at hs
  exact hs

theorem purpose_empty (headers : List String) (g : List Record)
    (h : ∀ r ∈ g, ∀ i < headers.length, r.purposeCells.getD i "" ≠ "Checked") :
    sort_index (purposeDistRaw headers g) = [] := by
  have hT : totalChecked g headers.length = 0 := by
    apply List.sum_eq_zero
    intro x hx
    obtain ⟨i, hi, rfl⟩ := List.mem_map.mp hx
    have hi' := List.mem_range.mp hi
    rw [countChecked, List.length_eq_zero]
    apply List.filter_eq_nil_iff.mpr
    intro r hr
    simp only [beq_iff_eq]
    exact h r hr i hi'
  rw [purposeDistRaw, if_pos hT]
  rfl

theorem talk_sum_100 (g : List Record) (h : ∃ r ∈ g, (talkLabel r).isSome = true) :
    distSum (get_talk_percentages g) = 100 := by
  obtain ⟨r, hr, hs⟩ := h
  obtain ⟨b, hb⟩ := Option.isSome_iff_exists.mp hs
  have hmem : b ∈ talkVals g := List.mem_filterMap.mpr ⟨r, hr, hb⟩
  have hne : (talkVals g).length ≠ 0 := by
    simpa [List.length_eq_zero] using List.ne_nil_of_mem hmem
  rw [get_talk_percentages, talkPctOfVals, if_neg hne, distSum, List.map_map]
  have hL : (((talkVals g).length : ℕ) : ℚ) ≠ 0 := by exact_mod_cast hne
  have hA := sum_pct_list ((talkVals g).dedup.map (fun s => (talkVals g).count s))
    (((talkVals g).length : ℕ) : ℚ)
  rw [List.map_map, List.sum_map_count_dedup_eq_length, mul_div_cancel_right₀ 100 hL] at hA
  calc ((sortL (fun a b => (talkVals g).count b ≤ (talkVals g).count a)
          (talkVals g).dedup).map
        (Prod.snd ∘ fun s =>
          (s, 100 * ((talkVals g).count s : ℚ) / ((talkVals g).length : ℚ)))).sum
      = ((talkVals g).dedup.map
        (Prod.snd ∘ fun s =>
          (s, 100 * ((talkVals g).count s : ℚ) / ((talkVals g).length : ℚ)))).sum :=
        ((sortL_perm _ _).map _).sum_eq
    _ = 100 := hA

theorem talk_empty (g : List Record) (h : ∀ r ∈ g, talkLabel r = none) :
    get_talk_percentages g = [] := by
  have hv : talkVals g = [] := List.filterMap_eq_nil_iff.mpr h
  rw [get_talk_percentages, hv, talkPctOfVals]
  rfl

theorem filterMap_talkLabel_length (recs : List Record) :
    (recs.filterMap talkLabel).length
      = (recs.filter (fun x => (talkLabel x).isSome)).length := by
  induction recs with
  | nil => rfl
  | cons a t ih =>
    cases ha : talkLabel a with
    | none => simp [List.filterMap_cons, List.filter_cons, ha, ih]
    | some b => simp [List.filterMap_cons, List.filter_cons, ha, ih]

theorem clean_column_name_fixed :
    ∀ p ∈ label_mapping, clean_column_name p.2 = p.2 := by decide

theorem focusLevelPct_zero (vals : List String) (resp : String)
    (hc : vals.count resp = 0) : focusLevelPct vals resp = 0 := by
  by_cases hl : vals.length = 0 <;> simp [focusLevelPct, hl, hc]

theorem focusTopicDist_keys (vals : List String) :
    (focusTopicDist vals).map Prod.fst = response_order := by
  simp [focusTopicDist, List.map_map, Function.comp_def]

theorem focusTopicDist_zero_mem (vals : List String) (resp : String)
    (h : resp ∈ response_order) (hc : vals.count resp = 0) :
    (resp, (0:ℚ)) ∈ focusTopicDist vals :=
  List.mem_map.mpr ⟨resp, h, by rw [focusLevelPct_zero vals resp hc]⟩

theorem roundHalfEven_intCast (n : ℤ) : roundHalfEven ((n : ℚ)) = n := by
  unfold roundHalfEven
  rw [Int.floor_intCast]
  rw [if_pos (by norm_num : (n:ℚ) - (n:ℚ) < 1/2)]

theorem round1_intCast (n : ℤ) : round1 ((n : ℚ)) = (n : ℚ) := by
  unfold round1
  rw [show (10:ℚ) * (n:ℚ) = ((10 * n : ℤ) : ℚ) from by push_cast; ring,
      roundHalfEven_intCast]
  push_cast
  rw [mul_comm]
  exact mul_div_cancel_right₀ _ (by norm_num)

/-! ## Claim theorems -/

/-- C1: for every affiliation group (SH or ILT) with at least one
qualifying record, the computed percentage distribution (purpose
checked-option percentages and talk-most single-choice percentages) sums
to exactly 100 (rationals model the float arithmetic, so "within
floating-point tolerance" is exact here); for every group with zero
qualifying records the distribution is empty, with no NaN or zero-sum
artifact possible since the zero-denominator branch returns the empty
series. -/
theorem c1_percentage_distributions (headers : List String) (recs : List Record) :
    ((∃ r ∈ support_hub_df recs, ∃ i, i < headers.length ∧
        r.purposeCells.getD i "" = "Checked") →
      distSum (support_percent headers recs) = 100) ∧
    ((∀ r ∈ support_hub_df recs, ∀ i < headers.length,
        r.purposeCells.getD i "" ≠ "Checked") →
      support_percent headers recs = []) ∧
    ((∃ r ∈ ilt_df recs, ∃ i, i < headers.length ∧
        r.purposeCells.getD i "" = "Checked") →
      distSum (ilt_percent headers recs) = 100) ∧
    ((∀ r ∈ ilt_df recs, ∀ i < headers.length,
        r.purposeCells.getD i "" ≠ "Checked") →
      ilt_percent headers recs = []) ∧
    ((∃ r ∈ support_hub_df recs, (talkLabel r).isSome = true) →
      distSum (get_talk_percentages (support_hub_df recs)) = 100) ∧
    ((∀ r ∈ support_hub_df recs, talkLabel r = none) →
      get_talk_percentages (support_hub_df recs) = []) ∧
    ((∃ r ∈ ilt_df recs, (talkLabel r).isSome = true) →
      distSum (get_talk_percentages (ilt_df recs)) = 100) ∧
    ((∀ r ∈ ilt_df recs, talkLabel r = none) →
      get_talk_percentages (ilt_df recs) = []) :=
  ⟨purpose_sum_100 headers _, purpose_empty headers _, purpose_sum_100 headers _,
   purpose_empty headers _, talk_sum_100 _, talk_empty _, talk_sum_100 _, talk_empty _⟩

theorem c1_percentage_distributions_witness :
    distSum (support_percent
      ["The purpose of this walkthrough was to: [Provide feedback to individual teachers]"]
      [c1RecSH, c1RecILT]) = 100 ∧
    get_talk_percentages (ilt_df [c1RecSH, c1RecILT]) = [] :=
  ⟨(c1_percentage_distributions _ _).1 ⟨c1RecSH, by decide, 0, by decide, by decide⟩,
   (c1_percentage_distributions
      ["The purpose of this walkthrough was to: [Provide feedback to individual teachers]"]
      [c1RecSH, c1RecILT]).2.2.2.2.2.2.2 (by decide)⟩

/-- C2: the checked-option percentage divides each purpose flag's Checked
count by the sum of all checked counts across every purpose in the group
(not by the number of records): in the 10-record scenario (6 SH, 4 ILT)
with "Provide feedback to individual teachers" Checked for 3 SH records
out of 5 total SH Checked flags, that label's SH percentage is 60, while
dividing by the group size 6 would give 50 instead. -/
theorem c2_checked_denominator :
    (support_hub_df c2Recs).length = 6 ∧
    (ilt_df c2Recs).length = 4 ∧
    countChecked (support_hub_df c2Recs) 0 = 3 ∧
    totalChecked (support_hub_df c2Recs) c2Headers.length = 5 ∧
    ("Provide feedback to individual teachers",
      100 * (countChecked (support_hub_df c2Recs) 0 : ℚ)
        / (totalChecked (support_hub_df c2Recs) c2Headers.length : ℚ))
      ∈ support_percent c2Headers c2Recs ∧
    100 * (countChecked (support_hub_df c2Recs) 0 : ℚ)
      / (totalChecked (support_hub_df c2Recs) c2Headers.length : ℚ) = 60 ∧
    100 * (countChecked (support_hub_df c2Recs) 0 : ℚ)
      / ((support_hub_df c2Recs).length : ℚ) = 50 := by
  refine ⟨by decide, by decide, by decide, by decide, ?_, ?_, ?_⟩
  · have hraw : ("Provide feedback to individual teachers",
        100 * (countChecked (support_hub_df c2Recs) 0 : ℚ)
          / (totalChecked (support_hub_df c2Recs) c2Headers.length : ℚ))
        ∈ purposeDistRaw c2Headers (support_hub_df c2Recs) := by
      rw [purposeDistRaw, if_neg (by decide)]
      apply List.mem_map.mpr
      refine ⟨0, by decide, ?_⟩
      rw [show clean_column_name (c2Headers.getD 0 "")
          = "Provide feedback to individual teachers" from by decide]
    exact ((sortL_perm (fun a b : String × ℚ => a.1 ≤ b.1)
      (purposeDistRaw c2Headers (support_hub_df c2Recs))).mem_iff).mpr hraw
  · rw [show countChecked (support_hub_df c2Recs) 0 = 3 from by decide,
        show totalChecked (support_hub_df c2Recs) c2Headers.length = 5 from by decide]
    norm_num
  · rw [show countChecked (support_hub_df c2Recs) 0 = 3 from by decide,
        show (support_hub_df c2Recs).length = 6 from by decide]
    norm_num

/-- C3: for every group and every focus-area topic, the focus-level
distribution reindexed onto the fixed response order has exactly
`response_order.length` entries (here 4), one per response level in
order, with value 0 for every response level absent from the raw data;
a group whose records all answered "Not a focus" for a topic yields
(0, 0, 0, 100). -/
theorem c3_reindex_zero_fill (recs : List Record) (i : Nat) :
    response_order.length = 4 ∧
    (ILT_data recs i).length = response_order.length ∧
    (SH_data recs i).length = response_order.length ∧
    (ILT_data recs i).map Prod.fst = response_order ∧
    (SH_data recs i).map Prod.fst = response_order ∧
    (∀ resp ∈ response_order,
      (focusValsOf (df_focus_all recs) "ILT" i).count resp = 0 →
        (resp, (0:ℚ)) ∈ ILT_data recs i) ∧
    (∀ resp ∈ response_order,
      (focusValsOf (df_focus_all recs) "SH" i).count resp = 0 →
        (resp, (0:ℚ)) ∈ SH_data recs i) ∧
    ILT_data c3Recs 0 =
      [("A great deal of focus", (0:ℚ)), ("Some focus", 0),
       ("A minor focus", 0), ("Not a focus", 100)] := by
  refine ⟨by decide, by simp [ILT_data, focusTopicDist], by simp [SH_data, focusTopicDist],
    focusTopicDist_keys _, focusTopicDist_keys _, ?_, ?_, ?_⟩
  · intro resp h hc
    exact focusTopicDist_zero_mem _ resp h hc
  · intro resp h hc
    exact focusTopicDist_zero_mem _ resp h hc
  · have hv : focusValsOf (df_focus_all c3Recs) "ILT" 0
        = ["Not a focus", "Not a focus"] := by decide
    have hc1 : (["Not a focus", "Not a focus"] : List String).count
        "A great deal of focus" = 0 := by decide
    have hc2 : (["Not a focus", "Not a focus"] : List String).count
        "Some focus" = 0 := by decide
    have hc3 : (["Not a focus", "Not a focus"] : List String).count
        "A minor focus" = 0 := by decide
    have hc4 : (["Not a focus", "Not a focus"] : List String).count
        "Not a focus" = 2 := by decide
    rw [ILT_data, hv, focusTopicDist, response_order]
    norm_num [focusLevelPct, hc1, hc2, hc3, hc4]

theorem c3_reindex_zero_fill_witness :
    ("A great deal of focus", (0:ℚ)) ∈ ILT_data c3Recs 1 :=
  (c3_reindex_zero_fill c3Recs 1).2.2.2.2.2.1 "A great deal of focus"
    (by decide) (by decide)

/-- C4: in the agreement proportion table each group's value is the
percentage of all respondents in that group who checked the purpose
(denominator = the group's record count, not the sum of checked
selections) and the Difference column is the signed rounded value
SupportHub% minus ILT%; a row with SupportHub% = 70.0 and ILT% = 40.0
yields Difference = 30.0, in the positive/blue styling zone since it
exceeds the +2 neutral threshold; with the checked-selections denominator
the scenario's SH value would instead be 50. -/
theorem c4_agreement_table :
    (∀ g : List Record, ∀ i : Nat, 0 < g.length →
      agreement_proportion g i
        = round1 ((countChecked g i : ℚ) / (g.length : ℚ) * 100)) ∧
    (∀ sh ilt : List Record, ∀ i : Nat,
      agreement_difference sh ilt i
        = round1 (agreement_proportion sh i - agreement_proportion ilt i)) ∧
    agreement_proportion (support_hub_df c4Recs) 0 = 70 ∧
    agreement_proportion (ilt_df c4Recs) 0 = 40 ∧
    agreement_difference (support_hub_df c4Recs) (ilt_df c4Recs) 0 = 30 ∧
    style_difference_zone
      (agreement_difference (support_hub_df c4Recs) (ilt_df c4Recs) 0)
      = DiffZone.blue ∧
    100 * (countChecked (support_hub_df c4Recs) 0 : ℚ)
      / (totalChecked (support_hub_df c4Recs) 2 : ℚ) = 50 := by
  have hSH : agreement_proportion (support_hub_df c4Recs) 0 = 70 := by
    rw [agreement_proportion, if_pos (by decide),
        show countChecked (support_hub_df c4Recs) 0 = 7 from by decide,
        show (support_hub_df c4Recs).length = 10 from by decide,
        show ((7:ℕ):ℚ) / ((10:ℕ):ℚ) * 100 = ((70:ℤ):ℚ) from by push_cast; norm_num,
        round1_intCast]
    norm_num
  have hILT : agreement_proportion (ilt_df c4Recs) 0 = 40 := by
    rw [agreement_proportion, if_pos (by decide),
        show countChecked (ilt_df c4Recs) 0 = 4 from by decide,
        show (ilt_df c4Recs).length = 10 from by decide,
        show ((4:ℕ):ℚ) / ((10:ℕ):ℚ) * 100 = ((40:ℤ):ℚ) from by push_cast; norm_num,
        round1_intCast]
    norm_num
  have hdiff : agreement_difference (support_hub_df c4Recs) (ilt_df c4Recs) 0 = 30 := by
    rw [agreement_difference, hSH, hILT,
        show (70:ℚ) - 40 = ((30:ℤ):ℚ) from by norm_num, round1_intCast]
    norm_num
  refine ⟨?_, ?_, hSH, hILT, hdiff, ?_, ?_⟩
  · intro g i h
    rw [agreement_proportion, if_pos h]
  · intro sh ilt i
    rfl
  · rw [hdiff]
    unfold style_difference_zone
    rw [if_pos (by norm_num [neutral_threshold] : neutral_threshold < (30:ℚ))]
  · rw [show countChecked (support_hub_df c4Recs) 0 = 7 from by decide,
        show totalChecked (support_hub_df c4Recs) 2 = 14 from by decide]
    norm_num

theorem c4_agreement_table_witness :
    agreement_proportion (support_hub_df c4Recs) 1
      = round1 ((countChecked (support_hub_df c4Recs) 1 : ℚ)
          / ((support_hub_df c4Recs).length : ℚ) * 100) :=
  c4_agreement_table.1 (support_hub_df c4Recs) 1 (by decide)

/-- C5: affiliation mapping trims surrounding whitespace before an exact,
case-sensitive lookup: both " MNPS Support Hub " and "MNPS Support Hub"
map to SH, "mnps support hub" maps to the unmapped marker (`none`), and a
record with an unmapped affiliation belongs to neither group frame. -/
theorem c5_affiliation_mapping (recs : List Record) (r : Record)
    (h : affiliation r = none) :
    affiliationOf " MNPS Support Hub " = some "SH" ∧
    affiliationOf "MNPS Support Hub" = some "SH" ∧
    affiliationOf "mnps support hub" = none ∧
    r ∉ support_hub_df recs ∧ r ∉ ilt_df recs := by
  refine ⟨by decide, by decide, by decide, ?_, ?_⟩
  · intro hmem
    have hb := (List.mem_filter.mp hmem).2
    rw [h] at hb
    simp at hb
  · intro hmem
    have hb := (List.mem_filter.mp hmem).2
    rw [h] at hb
    simp at hb

theorem c5_affiliation_mapping_witness :
    affiliationOf " MNPS Support Hub " = some "SH" ∧
    c5RecLower ∉ support_hub_df [c5RecLower] :=
  ⟨(c5_affiliation_mapping [c5RecLower] c5RecLower (by decide)).1,
   (c5_affiliation_mapping [c5RecLower] c5RecLower (by decide)).2.2.2.1⟩

/-- C6: purpose-column header cleaning is idempotent: every short label of
the long-phrase → short-label table is a fixed point of the cleaning
function, and `clean_column_name (clean_column_name h) = clean_column_name h`
for every header `h`. -/
theorem c6_clean_idempotent :
    (∀ p ∈ label_mapping, clean_column_name p.2 = p.2) ∧
    ∀ colname : String,
      clean_column_name (clean_column_name colname) = clean_column_name colname := by
  refine ⟨clean_column_name_fixed, ?_⟩
  intro colname
  rcases hf : label_mapping.find? (fun p => strContains colname p.1) with _ | p
  · have hh : clean_column_name colname = colname := by
      unfold clean_column_name
      rw [hf]
    rw [hh]
    exact hh
  · have hh : clean_column_name colname = p.2 := by
      unfold clean_column_name
      rw [hf]
    rw [hh]
    exact clean_column_name_fixed p (List.mem_of_find?_eq_some hf)

theorem c6_clean_idempotent_witness :
    clean_column_name "Sharpen our eye for quality instruction"
      = "Sharpen our eye for quality instruction" :=
  c6_clean_idempotent.1
    ("Sharpen our eye for quality math or ELA instruction",
     "Sharpen our eye for quality instruction") (by decide)

/-- C7 counterexample: the claim says the Likert mapping passes
already-numeric 1-5 values through, but the theory-of-action `likert_map`
(lines 585-594) has text keys only: an already-numeric cell 4 in the
theory column maps to missing (`none`), not to 4. -/
theorem c7_likert_counterexample :
    likert_map_theory (CellValue.num 4) = none ∧
    likert_map_theory (CellValue.num 4) ≠ some 4 := by
  refine ⟨rfl, ?_⟩
  decide

/-- C7 amended: both Likert maps are exact-match tables to integer scores
1-5 with the mid-scale synonyms "Somewhat agree" and "Slightly agree"
collapsing to 3, and any unmapped value becomes missing and is excluded
from the averages of the trend chart; the numeric 1-5 pass-through exists
only in the accountability map (lines 705-714), while the theory-of-action
map (lines 585-594) sends every already-numeric value to missing. -/
theorem c7_likert_mapping_amended :
    (likert_map_accountability (CellValue.num 1) = some 1 ∧
     likert_map_accountability (CellValue.num 2) = some 2 ∧
     likert_map_accountability (CellValue.num 3) = some 3 ∧
     likert_map_accountability (CellValue.num 4) = some 4 ∧
     likert_map_accountability (CellValue.num 5) = some 5 ∧
     likert_map_accountability (CellValue.num 0) = none ∧
     likert_map_accountability (CellValue.num 6) = none) ∧
    (∀ n : Int, likert_map_theory (CellValue.num n) = none) ∧
    (likert_map_theory (CellValue.text "Somewhat agree") = some 3 ∧
     likert_map_theory (CellValue.text "Slightly agree") = some 3 ∧
     likert_map_accountability (CellValue.text "Somewhat agree") = some 3 ∧
     likert_map_accountability (CellValue.text "Slightly agree") = some 3) ∧
    (∀ v s, likert_map_theory v = some s → 1 ≤ s ∧ s ≤ 5) ∧
    (∀ v s, likert_map_accountability v = some s → 1 ≤ s ∧ s ≤ 5) ∧
    (∀ recs r, theoryScore r = none → trend_all (recs ++ [r]) = trend_all recs) := by
  refine ⟨by decide, fun n => rfl, by decide, ?_, ?_, ?_⟩
  · intro v s hsc
    unfold likert_map_theory at hsc
    split at hsc <;> simp_all <;> omega
  · intro v s hsc
    unfold likert_map_accountability at hsc
    split at hsc <;> simp_all <;> omega
  · intro recs r h
    have hv : trendValid (recs ++ [r]) = trendValid recs := by
      rw [trendValid, trendValid, List.filter_append]
      simp [h]
    simp only [trend_all, hv]

theorem c7_likert_mapping_amended_witness :
    (1 ≤ (3:ℤ) ∧ (3:ℤ) ≤ 5) ∧ trend_all ([] ++ [c7RecUnmapped]) = trend_all [] :=
  ⟨c7_likert_mapping_amended.2.2.2.1 (CellValue.text "Somewhat agree") 3 (by decide),
   c7_likert_mapping_amended.2.2.2.2.2 [] c7RecUnmapped (by decide)⟩

/-- C8 (code-bug evidence): with "School Name" absent the script raises
`KeyError` at line 60, before any section renders, so no section shows at
all and the graceful check of lines 772-774 is never reached; with the
column present every section renders.  The claim's section-local error
handling holds only for the guarded theory/accountability sections, not
for "School Name". -/
theorem c8_missing_school_name_crashes :
    "School Name" ∉ c8Cols ∧
    sectionsRendered c8Cols = ([], some "KeyError: School Name") ∧
    sectionsRendered ("School Name" :: c8Cols)
      = (["overall_purpose_donuts", "agreement_table", "overall_talk_donuts",
          "overall_focus_bars", "theory_trend", "all_schools_purpose_donut",
          "all_schools_talk_donut", "accountability_trend",
          "school_level_breakdown"], none) :=
  ⟨by decide, by decide, by decide⟩

/-- C9: a record whose raw talk-most value has no entry in the
exact-match table is treated as missing and contributes to neither the
numerator nor the denominator of the "who talked the most" distribution
(adding such a record leaves the whole distribution unchanged), and the
denominator is the count of records with a mapped canonical label. -/
theorem c9_unmapped_talk_excluded (recs : List Record) (r : Record)
    (h : talkLabel r = none) :
    get_talk_percentages (recs ++ [r]) = get_talk_percentages recs ∧
    (talkVals recs).length
      = (recs.filter (fun x => (talkLabel x).isSome)).length := by
  constructor
  · have hv : talkVals (recs ++ [r]) = talkVals recs := by
      rw [talkVals, talkVals, List.filterMap_append]
      simp [h]
    rw [get_talk_percentages, get_talk_percentages, hv]
  · exact filterMap_talkLabel_length recs

theorem c9_unmapped_talk_excluded_witness :
    get_talk_percentages ([c9RecMapped] ++ [c9RecUnmapped])
      = get_talk_percentages [c9RecMapped] :=
  (c9_unmapped_talk_excluded [c9RecMapped] c9RecUnmapped (by decide)).1

/-- C10: the focus-area aggregation uses listwise deletion: a record with
a missing affiliation or a missing value in any one focus-area column is
excluded from the distributions of all four topics, both in the overall
chart and in the per-school chart (appending such a record changes no
distribution). -/
theorem c10_listwise_deletion (recs : List Record) (r : Record)
    (h : affiliation r = none ∨ none ∈ r.focusCells) :
    df_focus_all (recs ++ [r]) = df_focus_all recs ∧
    (∀ s, df_focus_school (recs ++ [r]) s = df_focus_school recs s) ∧
    (∀ i, ILT_data (recs ++ [r]) i = ILT_data recs i) ∧
    (∀ i, SH_data (recs ++ [r]) i = SH_data recs i) ∧
    (∀ s i, ILT_school_data (recs ++ [r]) s i = ILT_school_data recs s i) ∧
    (∀ s i, SH_school_data (recs ++ [r]) s i = SH_school_data recs s i) := by
  have hk : focusKeep r = false := by
    rw [focusKeep]
    rcases h with h1 | h2
    · rw [h1]
      rfl
    · have hall : r.focusCells.all Option.isSome = false := by
        cases hcase : r.focusCells.all Option.isSome with
        | false => rfl
        | true =>
          have := List.all_eq_true.mp hcase none h2
          simp at this
      rw [hall, Bool.and_false]
  have hall : df_focus_all (recs ++ [r]) = df_focus_all recs := by
    rw [df_focus_all, df_focus_all, List.filter_append]
    simp [hk]
  have hschool : ∀ s, df_focus_school (recs ++ [r]) s = df_focus_school recs s := by
    intro s
    rw [df_focus_school, df_focus_school, school_df, school_df, List.filter_append]
    cases hp : (r.schoolName == some s) with
    | false => simp [List.filter_append, hp]
    | true => simp [List.filter_append, hp, hk]
  refine ⟨hall, hschool, ?_, ?_, ?_, ?_⟩
  · intro i
    rw [ILT_data, ILT_data, hall]
  · intro i
    rw [SH_data, SH_data, hall]
  · intro s i
    rw [ILT_school_data, ILT_school_data, hschool]
  · intro s i
    rw [SH_school_data, SH_school_data, hschool]

theorem c10_listwise_deletion_witness :
    df_focus_all ([c10RecKept] ++ [c10RecDropped]) = df_focus_all [c10RecKept] :=
  (c10_listwise_deletion [c10RecKept] c10RecDropped (Or.inr (by decide))).1
